import Mathlib

/-!
Verification development for the azbloblease lease lifecycle engine.

The Go source is embedded shallowly: every backend call (Azure management
API, azblob data-plane call) is represented by a response field in an
environment record, pure control flow is translated function by function,
and each operation additionally reports a small trace (attempt counts,
sleep counts, which stage produced the terminal result) so that the
observable behaviour of the source loops can be stated and proved.
-/

set_option maxHeartbeats 1000000

namespace Azbloblease

/-! ## Status strings, from internal/config (config.go) -/

namespace Config

def success : String := "Success"

def fail : String := "Fail"

def successAlreadyExists : String := "SuccessAlreadyExists"

def successRenew : String := "SuccessOnRenew"

end Config

/-! ## Result model, from internal/models (models.go) -/

/-- ResponseInfo, the structured operation result.  Go pointer fields
(`*string`) are `Option String`: `none` is a nil pointer. -/
structure ResponseInfo where
  SubscriptionID : Option String
  ResourceGroupName : Option String
  StorageAccountName : Option String
  ContainerName : Option String
  BlobName : Option String
  Operation : Option String
  LeaseID : Option String
  Status : Option String
  ErrorMessage : Option String
deriving DecidableEq

/-- Each subcommand starts from this literal: the five input coordinates
echoed back, status preset to Fail, everything else nil. -/
def baseResponse (subscriptionID resourceGroupName accountName container blobName : String) :
    ResponseInfo :=
  { SubscriptionID := some subscriptionID
    ResourceGroupName := some resourceGroupName
    StorageAccountName := some accountName
    ContainerName := some container
    BlobName := some blobName
    Operation := none
    LeaseID := none
    Status := some Config.fail
    ErrorMessage := none }

/-- Removal of every double quote from an error string, as
`strings.Replace(err.Error(), "\"", "", -1)` does in the v2 subcommands. -/
def stripQuotes (s : String) : String := ⟨s.data.filter (fun c => c != '"')⟩

/-- Substring test, as Go `strings.Contains(s, marker)`. -/
def containsSubstr (s marker : String) : Bool := decide (marker.data <:+: s.data)

/-! ## Management-plane environment and GetAccountBlobEndpoint
(internal/common/storage.go) -/

/-- Responses of the management-plane calls made before the lease loop:
`GetStorageAccountsClient`, `GetAccountKey`, `azblob.NewSharedKeyCredential`
and the account-properties lookup inside `GetAccountBlobEndpoint`.  An
`Except.error` value carries the Go error text. -/
structure MgmtEnv where
  storageClient : Except String Unit
  accountKey : Except String String
  sharedKeyCredential : Except String Unit
  accountProps : Except String String

/-- GetAccountBlobEndpoint (storage.go, lines 42-57): on a failed
properties lookup it swallows the error and returns `""`; otherwise it
returns the primary blob endpoint from the properties. -/
def GetAccountBlobEndpoint (env : MgmtEnv) : String :=
  match env.accountProps with
  | .error _ => ""
  | .ok endpoint => endpoint

/-- Model of Go `net/url.Parse` restricted to what the embedding needs:
parsing fails exactly on ASCII control characters (the
`invalid control character in URL` error); in particular parsing the
empty string always succeeds, as in `net/url`. -/
def urlParse (rawURL : String) : Except String Unit :=
  if rawURL.data.any (fun c => decide (c.toNat < 32) || decide (c.toNat = 127)) then
    .error "net/url: invalid control character in URL"
  else
    .ok ()

/-- Stage of AcquireLease / RenewLease (v1) that produced the terminal
result. -/
inductive Stage where
  | storageClient
  | accountKey
  | credential
  | endpointParse
  | leaseLoop
deriving DecidableEq

/-! ## AcquireLease (internal/subcommands/acquire.go) -/

/-- Environment of one acquire invocation: the management-plane calls,
the proposed lease id produced by `uuid.New()`, and the outcome of the
backend `AcquireLease` call as a function of the proposed token and the
attempt index. -/
structure AcquireEnv extends MgmtEnv where
  proposedLeaseID : String
  acquireAttempt : String → Nat → Except String Unit

/-- Observable outcome of the acquire retry loop: the value of
`response.ErrorMessage` when the loop ends, the number of backend
acquire attempts, and the number of `time.Sleep` calls. -/
structure LoopTrace where
  errorMessage : Option String
  attempts : Nat
  sleeps : Nat
deriving DecidableEq

/-- The retry loop of acquire.go (lines 103-120), one constructor case per
iteration: a failed attempt records the error message (overwriting any
prior one) and is always followed by a sleep, also on the last iteration;
a successful attempt clears the message and breaks before sleeping. -/
def acquireLoopAux (attempt : Nat → Except String Unit) :
    Nat → Nat → Option String → Nat → Nat → LoopTrace
  | _, 0, errMsg, att, slp => ⟨errMsg, att, slp⟩
  | i, fuel + 1, _errMsg, att, slp =>
    match attempt i with
    | .error m => acquireLoopAux attempt (i + 1) fuel (some m) (att + 1) (slp + 1)
    | .ok _ => ⟨none, att + 1, slp⟩

def acquireLoop (attempt : Nat → Except String Unit) (retries : Nat) : LoopTrace :=
  acquireLoopAux attempt 0 retries none 0 0

/-- Result of AcquireLease together with its trace. -/
structure AcquireOutput where
  response : ResponseInfo
  attempts : Nat
  sleeps : Nat
  stage : Stage
deriving DecidableEq

/-- AcquireLease (acquire.go, lines 28-128).  Every early-error branch
returns the base response with only `ErrorMessage` set; after the loop,
`Status`/`LeaseID` are set exactly when the loop left `ErrorMessage`
nil.  The single `proposedLeaseID` is passed to every attempt. -/
def AcquireLease (env : AcquireEnv) (subscriptionID resourceGroupName accountName
    container blobName : String) (_leaseDuration retries _waittimesec : Nat) : AcquireOutput :=
  let response := baseResponse subscriptionID resourceGroupName accountName container blobName
  match env.storageClient with
  | .error e => ⟨{ response with ErrorMessage := some e }, 0, 0, .storageClient⟩
  | .ok _ =>
    match env.accountKey with
    | .error e => ⟨{ response with ErrorMessage := some e }, 0, 0, .accountKey⟩
    | .ok _ =>
      match env.sharedKeyCredential with
      | .error e => ⟨{ response with ErrorMessage := some e }, 0, 0, .credential⟩
      | .ok _ =>
        match urlParse (GetAccountBlobEndpoint env.toMgmtEnv) with
        | .error e => ⟨{ response with ErrorMessage := some e }, 0, 0, .endpointParse⟩
        | .ok _ =>
          let tr := acquireLoop (env.acquireAttempt env.proposedLeaseID) retries
          match tr.errorMessage with
          | none =>
            ⟨{ response with
                Status := some Config.success
                LeaseID := some env.proposedLeaseID
                ErrorMessage := none }, tr.attempts, tr.sleeps, .leaseLoop⟩
          | some m =>
            ⟨{ response with ErrorMessage := some m }, tr.attempts, tr.sleeps, .leaseLoop⟩

/-! ## RenewLease, current implementation (unnamed part_005, track-2 SDK) -/

/-- Outcome of one iteration of the v2 renew loop: the per-iteration
`lease.NewBlobClient` construction may fail (which records the message
but does not abort), the backend `RenewLease` call may fail (which
aborts), or the renewal succeeds with a backend-confirmed lease id and
request id. -/
inductive Renew2Step where
  | clientErr (msg : String)
  | renewErr (msg : String)
  | renewOk (leaseID requestID : String)

/-- Environment of one v2 renew invocation: `GetStorageClient`,
`GetBlobClient`, `blockblob.NewClient`, the pre-loop `GetProperties`
reachability check, and the per-iteration outcome. -/
structure Renew2Env where
  storageClient : Except String Unit
  blobClient : Except String Unit
  blockBlobClient : Except String Unit
  blobProps : Except String Unit
  step : Nat → Renew2Step

/-- Observable outcome of the v2 renew loop: final `ErrorMessage`,
whether the loop aborted (returned early on a renew failure), the number
of backend renew calls, emitted diagnostic lines and sleeps. -/
structure Renew2LoopOut where
  errMsg : Option String
  aborted : Bool
  calls : Nat
  diags : Nat
  sleeps : Nat
deriving DecidableEq

/-- The renew loop of part_005 (lines 70-103): a lease-client
construction error records the (quote-stripped) message, sleeps and
continues; a renew error records the message and returns immediately; a
success emits one diagnostic, sleeps and continues. -/
def renew2LoopAux (step : Nat → Renew2Step) :
    Nat → Nat → Option String → Nat → Nat → Nat → Renew2LoopOut
  | _, 0, errMsg, calls, diags, slps => ⟨errMsg, false, calls, diags, slps⟩
  | i, fuel + 1, errMsg, calls, diags, slps =>
    match step i with
    | .clientErr m => renew2LoopAux step (i + 1) fuel (some (stripQuotes m)) calls diags (slps + 1)
    | .renewErr m => ⟨some (stripQuotes m), true, calls + 1, diags, slps⟩
    | .renewOk _ _ => renew2LoopAux step (i + 1) fuel errMsg (calls + 1) (diags + 1) (slps + 1)

/-- Result of a renew invocation together with its trace. -/
structure RenewOutput where
  response : ResponseInfo
  renewCalls : Nat
  diagnostics : Nat
  sleeps : Nat
deriving DecidableEq

/-- RenewLease (part_005, lines 25-104).  Early-error branches return the
base response with the quote-stripped message.  If the loop returns early
the response is returned as-is (status still Fail); if the loop runs to
completion the status is set to SuccessOnRenew.  Note that `LeaseID` is
never assigned: the renewed lease id is used only in the diagnostic
line. -/
def RenewLease (env : Renew2Env) (subscriptionID resourceGroupName accountName
    container blobName _leaseID : String) (iterations _waittimesec : Nat) : RenewOutput :=
  let response := baseResponse subscriptionID resourceGroupName accountName container blobName
  match env.storageClient with
  | .error e => ⟨{ response with ErrorMessage := some (stripQuotes e) }, 0, 0, 0⟩
  | .ok _ =>
    match env.blobClient with
    | .error e => ⟨{ response with ErrorMessage := some (stripQuotes e) }, 0, 0, 0⟩
    | .ok _ =>
      match env.blockBlobClient with
      | .error e => ⟨{ response with ErrorMessage := some (stripQuotes e) }, 0, 0, 0⟩
      | .ok _ =>
        match env.blobProps with
        | .error e => ⟨{ response with ErrorMessage := some (stripQuotes e) }, 0, 0, 0⟩
        | .ok _ =>
          let lo := renew2LoopAux env.step 0 iterations none 0 0 0
          if lo.aborted then
            ⟨{ response with ErrorMessage := lo.errMsg }, lo.calls, lo.diags, lo.sleeps⟩
          else
            ⟨{ response with
                Status := some Config.successRenew
                ErrorMessage := lo.errMsg }, lo.calls, lo.diags, lo.sleeps⟩

/-! ## RenewLease, v1 implementation (internal/subcommands/renew.go) -/

/-- Outcome of one backend renew call in the v1 loop. -/
inductive Renew1Call where
  | err (msg : String)
  | ok (leaseID requestID : String)

/-- Environment of one v1 renew invocation: the same management-plane
calls as acquire, plus the per-iteration backend renew outcome. -/
structure Renew1Env extends MgmtEnv where
  renewCall : Nat → Renew1Call

/-- Observable outcome of the v1 renew loop, including the running
`renewedLeaseID` variable (initially the empty string). -/
structure Renew1LoopOut where
  errMsg : Option String
  renewedLeaseID : String
  aborted : Bool
  calls : Nat
  diags : Nat
  sleeps : Nat
deriving DecidableEq

/-- The renew loop of renew.go (lines 100-117): any renew error records
the message and returns immediately; a success stores the
backend-confirmed lease id, emits one diagnostic and sleeps. -/
def renew1LoopAux (call : Nat → Renew1Call) :
    Nat → Nat → String → Nat → Nat → Nat → Renew1LoopOut
  | _, 0, renewed, calls, diags, slps => ⟨none, renewed, false, calls, diags, slps⟩
  | i, fuel + 1, renewed, calls, diags, slps =>
    match call i with
    | .err m => ⟨some m, renewed, true, calls + 1, diags, slps⟩
    | .ok lid _rid => renew1LoopAux call (i + 1) fuel lid (calls + 1) (diags + 1) (slps + 1)

/-- Result of a v1 renew invocation together with its trace. -/
structure Renew1Output where
  response : ResponseInfo
  renewCalls : Nat
  diagnostics : Nat
  sleeps : Nat
  stage : Stage
deriving DecidableEq

/-- RenewLease (renew.go, lines 27-122), the v1 implementation: same
management-plane prologue as acquire; on loop completion it reports
SuccessOnRenew with `LeaseID` set to the lease id most recently confirmed
by the backend. -/
def RenewLeaseV1 (env : Renew1Env) (subscriptionID resourceGroupName accountName
    container blobName _leaseID : String) (iterations _waittimesec : Nat) : Renew1Output :=
  let response := baseResponse subscriptionID resourceGroupName accountName container blobName
  match env.storageClient with
  | .error e => ⟨{ response with ErrorMessage := some e }, 0, 0, 0, .storageClient⟩
  | .ok _ =>
    match env.accountKey with
    | .error e => ⟨{ response with ErrorMessage := some e }, 0, 0, 0, .accountKey⟩
    | .ok _ =>
      match env.sharedKeyCredential with
      | .error e => ⟨{ response with ErrorMessage := some e }, 0, 0, 0, .credential⟩
      | .ok _ =>
        match urlParse (GetAccountBlobEndpoint env.toMgmtEnv) with
        | .error e => ⟨{ response with ErrorMessage := some e }, 0, 0, 0, .endpointParse⟩
        | .ok _ =>
          let lo := renew1LoopAux env.renewCall 0 iterations "" 0 0 0
          if lo.aborted then
            ⟨{ response with ErrorMessage := lo.errMsg }, lo.calls, lo.diags, lo.sleeps, .leaseLoop⟩
          else
            ⟨{ response with
                Status := some Config.successRenew
                LeaseID := some lo.renewedLeaseID }, lo.calls, lo.diags, lo.sleeps, .leaseLoop⟩

/-! ## CreateLeaseBlob (internal/subcommands/createleaseblob.go) -/

/-- Backend calls CreateLeaseBlob can make against the storage account,
recorded in order in the trace. -/
inductive BackendCall where
  | containerGetProps
  | containerCreate
  | blobGetProps
  | uploadStream
deriving DecidableEq

/-- Environment of one createleaseblob invocation: the client
constructions and the responses of the five storage calls. -/
structure CreateEnv where
  storageClient : Except String Unit
  blobClient : Except String Unit
  containerProps : Except String Unit
  containerCreate : Except String Unit
  blockBlobClient : Except String Unit
  blobProps : Except String Unit
  uploadStream : Except String Unit

/-- CreateLeaseBlob (createleaseblob.go, lines 26-116): existence-check
errors are classified by substring match on the error text
(`ContainerNotFound` / `BlobNotFound`); a not-found error triggers the
corresponding creation call, any other error aborts with Fail.  The
returned list is the trace of storage calls in order. -/
def CreateLeaseBlob (env : CreateEnv) (subscriptionID resourceGroupName accountName
    container blobName : String) : ResponseInfo × List BackendCall :=
  let response := baseResponse subscriptionID resourceGroupName accountName container blobName
  match env.storageClient with
  | .error e => ({ response with ErrorMessage := some (stripQuotes e) }, [])
  | .ok _ =>
    match env.blobClient with
    | .error e => ({ response with ErrorMessage := some (stripQuotes e) }, [])
    | .ok _ =>
      let blobPhase : List BackendCall → ResponseInfo × List BackendCall := fun trace =>
        match env.blockBlobClient with
        | .error e => ({ response with ErrorMessage := some (stripQuotes e) }, trace)
        | .ok _ =>
          match env.blobProps with
          | .ok _ =>
            ({ response with Status := some Config.successAlreadyExists },
              trace ++ [.blobGetProps])
          | .error e =>
            if !containsSubstr e "BlobNotFound" then
              ({ response with ErrorMessage := some (stripQuotes e) }, trace ++ [.blobGetProps])
            else
              match env.uploadStream with
              | .error e2 =>
                ({ response with ErrorMessage := some (stripQuotes e2) },
                  trace ++ [.blobGetProps, .uploadStream])
              | .ok _ =>
                ({ response with Status := some Config.success },
                  trace ++ [.blobGetProps, .uploadStream])
      match env.containerProps with
      | .ok _ => blobPhase [.containerGetProps]
      | .error e =>
        if !containsSubstr e "ContainerNotFound" then
          ({ response with ErrorMessage := some (stripQuotes e) }, [.containerGetProps])
        else
          match env.containerCreate with
          | .error e2 =>
            ({ response with ErrorMessage := some (stripQuotes e2) },
              [.containerGetProps, .containerCreate])
          | .ok _ => blobPhase [.containerGetProps, .containerCreate]

/-! ## Honest-backend interpretation of CreateLeaseBlob

The abstract environment above records what each backend call answers.
For the idempotence claim the backend is instantiated faithfully to
Azure blob-storage semantics: existence checks answer according to a
state, creations succeed and update that state. -/

/-- State of the storage target: whether the container exists and the
content of the lease blob, if it exists. -/
structure BlobState where
  containerExists : Bool
  blobContent : Option String
deriving DecidableEq

/-- Environment answering each call according to the state: a
`GetProperties` on a missing container/blob fails with the corresponding
not-found error code in the text, creations and uploads succeed. -/
def honestEnv (s : BlobState) : CreateEnv :=
  { storageClient := .ok ()
    blobClient := .ok ()
    containerProps := if s.containerExists then .ok () else .error "ContainerNotFound"
    containerCreate := .ok ()
    blockBlobClient := .ok ()
    blobProps :=
      match s.blobContent with
      | some _ => .ok ()
      | none => .error "BlobNotFound"
    uploadStream := .ok () }

/-- Effect of one backend call on the state; `payload` is the random 1KB
buffer CreateLeaseBlob uploads when it creates the blob. -/
def applyCall (payload : String) (s : BlobState) : BackendCall → BlobState
  | .containerCreate => { s with containerExists := true }
  | .uploadStream => { s with blobContent := some payload }
  | _ => s

/-- One run of CreateLeaseBlob against the honest backend in state `s`:
the structured result and the post-state. -/
def runCreateLeaseBlob (s : BlobState) (payload : String) (subscriptionID resourceGroupName
    accountName container blobName : String) : ResponseInfo × BlobState :=
  let out := CreateLeaseBlob (honestEnv s) subscriptionID resourceGroupName accountName
    container blobName
  (out.1, out.2.foldl (applyCall payload) s)

/-! ## BuildResultResponse (utils.go): the wire format

`json.MarshalIndent(result, "", "    ")` followed by
`strings.Replace(s, "\"\"", "null", -1)`.  The marshaled text is modeled
at the character-list level; `goReplace` is the leftmost, global
replacement of the two-character pattern `""` by `null` that
`strings.Replace` performs. -/

/-- JSON string escaping for the characters relevant to this data
(double quote and backslash; `encoding/json` escapes further characters
that never affect the `""`-to-`null` rewriting). -/
def escapeChar (c : Char) : List Char :=
  if c = '"' then ['\\', '"'] else if c = '\\' then ['\\', '\\'] else [c]

def escapeChars : List Char → List Char
  | [] => []
  | c :: rest => escapeChar c ++ escapeChars rest

/-- Rendering of one `*string` field: a nil pointer marshals to `null`,
a string to its quoted, escaped form. -/
def renderFieldChars : Option String → List Char
  | none => "null".data
  | some s => '"' :: (escapeChars s.data ++ ['"'])

/-- Leftmost global replacement of the two-character pattern `""` by
`null`, as `strings.Replace(s, "\"\"", "null", -1)`. -/
def goReplace : List Char → List Char
  | [] => []
  | [c] => [c]
  | c1 :: c2 :: rest =>
    if c1 = '"' ∧ c2 = '"' then "null".data ++ goReplace rest
    else c1 :: goReplace (c2 :: rest)

def jsonHead : List Char := "\x7b\n    \"subscriptionId\": ".data

def sepResourceGroupName : List Char := ",\n    \"resourceGroupName\": ".data

def sepStorageAccountName : List Char := ",\n    \"storageAccountName\": ".data

def sepContainerName : List Char := ",\n    \"containerName\": ".data

def sepBlobName : List Char := ",\n    \"blobName\": ".data

def sepOperation : List Char := ",\n    \"operation\": ".data

def sepLeaseID : List Char := ",\n    \"leaseId\": ".data

def sepStatus : List Char := ",\n    \"status\": ".data

def sepErrorMessage : List Char := ",\n    \"errorMessage\": ".data

def jsonTail : List Char := "\n\x7d".data

/-- The `json.MarshalIndent(result, "", "    ")` text of a ResponseInfo,
with the fields in struct order under their JSON tags. -/
def marshalChars (r : ResponseInfo) : List Char :=
  jsonHead ++ (renderFieldChars r.SubscriptionID ++
    (sepResourceGroupName ++ (renderFieldChars r.ResourceGroupName ++
      (sepStorageAccountName ++ (renderFieldChars r.StorageAccountName ++
        (sepContainerName ++ (renderFieldChars r.ContainerName ++
          (sepBlobName ++ (renderFieldChars r.BlobName ++
            (sepOperation ++ (renderFieldChars r.Operation ++
              (sepLeaseID ++ (renderFieldChars r.LeaseID ++
                (sepStatus ++ (renderFieldChars r.Status ++
                  (sepErrorMessage ++ (renderFieldChars r.ErrorMessage ++
                    jsonTail)))))))))))))))))

/-- BuildResultResponse (utils.go, lines 183-187): marshal, then replace
every `""` by `null`. -/
def BuildResultResponse (r : ResponseInfo) : String := ⟨goReplace (marshalChars r)⟩

/-- Replacement of an empty-string field value by a nil pointer. -/
def nullifyF (v : Option String) : Option String := if v = some "" then none else v

/-- The result with every empty-string field replaced by a nil pointer:
the JSON text BuildResultResponse emits for `r` parses back to exactly
this value. -/
def nullifyEmptyFields (r : ResponseInfo) : ResponseInfo :=
  { SubscriptionID := nullifyF r.SubscriptionID
    ResourceGroupName := nullifyF r.ResourceGroupName
    StorageAccountName := nullifyF r.StorageAccountName
    ContainerName := nullifyF r.ContainerName
    BlobName := nullifyF r.BlobName
    Operation := nullifyF r.Operation
    LeaseID := nullifyF r.LeaseID
    Status := nullifyF r.Status
    ErrorMessage := nullifyF r.ErrorMessage }

/-! ## Concrete environments used to instantiate the theorems -/

/-- Acquire environment whose backend rejects every attempt. -/
def envC3 : AcquireEnv :=
  { storageClient := .ok ()
    accountKey := .ok "key"
    sharedKeyCredential := .ok ()
    accountProps := .ok "https://example.blob.core.windows.net/"
    proposedLeaseID := "0f8fad5b-d9cb-469f-a165-70867728950e"
    acquireAttempt := fun _ _ => .error "LeaseAlreadyPresent" }

/-- Acquire environment whose backend rejects the first attempt and
accepts the second. -/
def envC4 : AcquireEnv :=
  { envC3 with
    acquireAttempt := fun _ i => if i = 0 then .error "LeaseAlreadyPresent" else .ok () }

/-- Current-implementation renew environment whose backend confirms
every renewal with a fixed lease id. -/
def envC2 : Renew2Env :=
  { storageClient := .ok ()
    blobClient := .ok ()
    blockBlobClient := .ok ()
    blobProps := .ok ()
    step := fun _ => .renewOk "0f8fad5b-d9cb-469f-a165-70867728950e" "req-1" }

/-- The same backend behaviour for the v1 implementation. -/
def envC2V1 : Renew1Env :=
  { storageClient := .ok ()
    accountKey := .ok "key"
    sharedKeyCredential := .ok ()
    accountProps := .ok "https://example.blob.core.windows.net/"
    renewCall := fun _ => .ok "0f8fad5b-d9cb-469f-a165-70867728950e" "req-1" }

/-- Renew environment whose backend confirms the first renewal and
rejects the second. -/
def envC5 : Renew2Env :=
  { storageClient := .ok ()
    blobClient := .ok ()
    blockBlobClient := .ok ()
    blobProps := .ok ()
    step := fun i =>
      if i < 1 then .renewOk "lease-1" "req-1"
      else .renewErr "LeaseIdMismatchWithLeaseOperation" }

/-- The five input coordinates echoed unchanged in a result. -/
def echoesInputs (r : ResponseInfo) (subscriptionID resourceGroupName accountName
    container blobName : String) : Prop :=
  r.SubscriptionID = some subscriptionID ∧
  r.ResourceGroupName = some resourceGroupName ∧
  r.StorageAccountName = some accountName ∧
  r.ContainerName = some container ∧
  r.BlobName = some blobName

/-- The status is one of the four canonical status strings. -/
def statusCanonical (r : ResponseInfo) : Prop :=
  r.Status ∈ [some Config.success, some Config.successAlreadyExists,
    some Config.successRenew, some Config.fail]

/-! ## Theorems -/

theorem acquireLoopAux_all_fail (attempt : Nat → Except String Unit) (msg : Nat → String) :
    ∀ (fuel i : Nat) (e : Option String) (att slp : Nat), 1 ≤ fuel →
      (∀ j, i ≤ j → j < i + fuel → attempt j = .error (msg j)) →
      acquireLoopAux attempt i fuel e att slp =
        ⟨some (msg (i + fuel - 1)), att + fuel, slp + fuel⟩ := by
  intro fuel
  induction fuel with
  | zero =>
    intro i e att slp h1 _
    exact absurd h1 (by omega)
  | succ n ih =>
    intro i e att slp _ h
    have hi : attempt i = .error (msg i) := h i le_rfl (by omega)
    simp only [acquireLoopAux, hi]
    rcases Nat.eq_zero_or_pos n with hn | hn
    · subst hn
      simp [acquireLoopAux]
    · have hrec := ih (i + 1) (some (msg i)) (att + 1) (slp + 1) hn
        (fun j hj1 hj2 => h j (by omega) (by omega))
      rw [hrec]
      have h1 : i + 1 + n - 1 = i + (n + 1) - 1 := by omega
      have h2 : att + 1 + n = att + (n + 1) := by omega
      have h3 : slp + 1 + n = slp + (n + 1) := by omega
      rw [h1, h2, h3]

theorem acquireLoopAux_first_success (attempt : Nat → Except String Unit) (msg : Nat → String) :
    ∀ (t fuel i : Nat) (e : Option String) (att slp : Nat),
      (∀ j, j < t → attempt (i + j) = .error (msg (i + j))) →
      attempt (i + t) = .ok () →
      t < fuel →
      acquireLoopAux attempt i fuel e att slp = ⟨none, att + t + 1, slp + t⟩ := by
  intro t
  induction t with
  | zero =>
    intro fuel i e att slp _ hok hlt
    obtain ⟨f, rfl⟩ : ∃ f, fuel = f + 1 := ⟨fuel - 1, by omega⟩
    have hi : attempt i = .ok () := by simpa using hok
    simp [acquireLoopAux, hi]
  | succ t ih =>
    intro fuel i e att slp hpre hok hlt
    obtain ⟨f, rfl⟩ : ∃ f, fuel = f + 1 := ⟨fuel - 1, by omega⟩
    have hi : attempt i = .error (msg i) := by simpa using hpre 0 (by omega)
    have hrec := ih f (i + 1) (some (msg i)) (att + 1) (slp + 1)
      (fun j hj => by
        have h0 := hpre (j + 1) (by omega)
        have e1 : i + (j + 1) = i + 1 + j := by omega
        rw [e1] at h0
        exact h0)
      (by
        have e2 : i + (t + 1) = i + 1 + t := by omega
        rw [e2] at hok
        exact hok)
      (by omega)
    simp only [acquireLoopAux, hi]
    rw [hrec]
    have h2 : att + 1 + t + 1 = att + (t + 1) + 1 := by omega
    have h3 : slp + 1 + t = slp + (t + 1) := by omega
    rw [h2, h3]

/-- C1: for every terminal result of the acquire operation, exactly one
of the lease token and the error message is non-null: a Success result
carries the proposed token and a nil error message, and a Fail result
carries an error message and a nil token. -/
theorem acquire_result_exactly_one_of_token_and_error
    (env : AcquireEnv) (subscriptionID resourceGroupName accountName container blobName : String)
    (leaseDuration retries waittimesec : Nat) :
    ((AcquireLease env subscriptionID resourceGroupName accountName container blobName
        leaseDuration retries waittimesec).response.Status = some Config.success ∧
      (AcquireLease env subscriptionID resourceGroupName accountName container blobName
        leaseDuration retries waittimesec).response.LeaseID = some env.proposedLeaseID ∧
      (AcquireLease env subscriptionID resourceGroupName accountName container blobName
        leaseDuration retries waittimesec).response.ErrorMessage = none) ∨
    ((AcquireLease env subscriptionID resourceGroupName accountName container blobName
        leaseDuration retries waittimesec).response.Status = some Config.fail ∧
      (AcquireLease env subscriptionID resourceGroupName accountName container blobName
        leaseDuration retries waittimesec).response.LeaseID = none ∧
      ∃ m, (AcquireLease env subscriptionID resourceGroupName accountName container blobName
        leaseDuration retries waittimesec).response.ErrorMessage = some m) := by
  simp only [AcquireLease]
  repeat' split
  all_goals first
    | (left; exact ⟨rfl, rfl, rfl⟩)
    | (right; exact ⟨rfl, rfl, _, rfl⟩)

/-- C3 counterexample: with retry budget N = 1 and a backend that always
fails, the code performs 1 sleep, not N - 1 = 0: the sleep also runs
after the final failed attempt. -/
theorem acquire_exhaustion_sleep_count_refuted :
    (AcquireLease envC3 "sub" "rg" "acct" "cont" "blob" 15 1 1).attempts = 1 ∧
    (AcquireLease envC3 "sub" "rg" "acct" "cont" "blob" 15 1 1).sleeps = 1 ∧
    ¬ (AcquireLease envC3 "sub" "rg" "acct" "cont" "blob" 15 1 1).sleeps = 1 - 1 := by
  decide

/-- C3 (amended): with retry budget N ≥ 1 and a backend that fails every
attempt, exactly N attempts are made, exactly N sleeps occur (the code
sleeps after every failed attempt, including the last), and the result
is Fail with the last attempt's error message and a nil token. -/
theorem acquire_exhaustion_attempts_and_sleeps
    (env : AcquireEnv) (subscriptionID resourceGroupName accountName container blobName
      key : String) (leaseDuration waittimesec N : Nat) (msg : Nat → String)
    (hsc : env.storageClient = .ok ()) (hak : env.accountKey = .ok key)
    (hcr : env.sharedKeyCredential = .ok ())
    (hurl : urlParse (GetAccountBlobEndpoint env.toMgmtEnv) = .ok ())
    (hfail : ∀ j, j < N → env.acquireAttempt env.proposedLeaseID j = .error (msg j))
    (hN : 1 ≤ N) :
    (AcquireLease env subscriptionID resourceGroupName accountName container blobName
      leaseDuration N waittimesec).attempts = N ∧
    (AcquireLease env subscriptionID resourceGroupName accountName container blobName
      leaseDuration N waittimesec).sleeps = N ∧
    (AcquireLease env subscriptionID resourceGroupName accountName container blobName
      leaseDuration N waittimesec).response.Status = some Config.fail ∧
    (AcquireLease env subscriptionID resourceGroupName accountName container blobName
      leaseDuration N waittimesec).response.ErrorMessage = some (msg (N - 1)) ∧
    (AcquireLease env subscriptionID resourceGroupName accountName container blobName
      leaseDuration N waittimesec).response.LeaseID = none := by
  have hloop := acquireLoopAux_all_fail (env.acquireAttempt env.proposedLeaseID) msg N 0
    none 0 0 hN (fun j _ hj2 => hfail j (by omega))
  simp only [AcquireLease, hsc, hak, hcr, hurl, acquireLoop, hloop]
  simp [baseResponse]

theorem acquire_exhaustion_attempts_and_sleeps_witness :
    (AcquireLease envC3 "sub" "rg" "acct" "cont" "blob" 15 2 1).attempts = 2 ∧
    (AcquireLease envC3 "sub" "rg" "acct" "cont" "blob" 15 2 1).sleeps = 2 ∧
    (AcquireLease envC3 "sub" "rg" "acct" "cont" "blob" 15 2 1).response.Status =
      some Config.fail ∧
    (AcquireLease envC3 "sub" "rg" "acct" "cont" "blob" 15 2 1).response.ErrorMessage =
      some "LeaseAlreadyPresent" ∧
    (AcquireLease envC3 "sub" "rg" "acct" "cont" "blob" 15 2 1).response.LeaseID = none :=
  acquire_exhaustion_attempts_and_sleeps envC3 "sub" "rg" "acct" "cont" "blob" "key" 15 1 2
    (fun _ => "LeaseAlreadyPresent") rfl rfl rfl rfl (fun _ _ => rfl) (by omega)

/-- C4: with retry budget N, if the backend fails attempts 1..k-1 and
accepts attempt k (1 ≤ k ≤ N), exactly k attempts are made, exactly k-1
sleeps occur, and the reported token is the single proposed token
generated once for the whole session. -/
theorem acquire_first_success_short_circuit
    (env : AcquireEnv) (subscriptionID resourceGroupName accountName container blobName
      key : String) (leaseDuration waittimesec N k : Nat) (msg : Nat → String)
    (hsc : env.storageClient = .ok ()) (hak : env.accountKey = .ok key)
    (hcr : env.sharedKeyCredential = .ok ())
    (hurl : urlParse (GetAccountBlobEndpoint env.toMgmtEnv) = .ok ())
    (hk1 : 1 ≤ k) (hkN : k ≤ N)
    (hpre : ∀ j, j < k - 1 → env.acquireAttempt env.proposedLeaseID j = .error (msg j))
    (hok : env.acquireAttempt env.proposedLeaseID (k - 1) = .ok ()) :
    (AcquireLease env subscriptionID resourceGroupName accountName container blobName
      leaseDuration N waittimesec).attempts = k ∧
    (AcquireLease env subscriptionID resourceGroupName accountName container blobName
      leaseDuration N waittimesec).sleeps = k - 1 ∧
    (AcquireLease env subscriptionID resourceGroupName accountName container blobName
      leaseDuration N waittimesec).response.LeaseID = some env.proposedLeaseID ∧
    (AcquireLease env subscriptionID resourceGroupName accountName container blobName
      leaseDuration N waittimesec).response.Status = some Config.success ∧
    (AcquireLease env subscriptionID resourceGroupName accountName container blobName
      leaseDuration N waittimesec).response.ErrorMessage = none := by
  have hloop := acquireLoopAux_first_success (env.acquireAttempt env.proposedLeaseID) msg
    (k - 1) N 0 none 0 0
    (fun j hj => by simpa using hpre j hj)
    (by simpa using hok)
    (by omega)
  simp only [AcquireLease, hsc, hak, hcr, hurl, acquireLoop, hloop]
  refine ⟨?_, ?_, ?_, ?_, ?_⟩ <;> first | trivial | omega

theorem acquire_first_success_short_circuit_witness :
    (AcquireLease envC4 "sub" "rg" "acct" "cont" "blob" 15 3 1).attempts = 2 ∧
    (AcquireLease envC4 "sub" "rg" "acct" "cont" "blob" 15 3 1).sleeps = 1 ∧
    (AcquireLease envC4 "sub" "rg" "acct" "cont" "blob" 15 3 1).response.LeaseID =
      some "0f8fad5b-d9cb-469f-a165-70867728950e" ∧
    (AcquireLease envC4 "sub" "rg" "acct" "cont" "blob" 15 3 1).response.Status =
      some Config.success ∧
    (AcquireLease envC4 "sub" "rg" "acct" "cont" "blob" 15 3 1).response.ErrorMessage = none :=
  acquire_first_success_short_circuit envC4 "sub" "rg" "acct" "cont" "blob" "key" 15 1 3 2
    (fun _ => "LeaseAlreadyPresent") rfl rfl rfl rfl (by omega) (by omega)
    (fun j hj => by
      have hj0 : j = 0 := by omega
      subst hj0
      rfl)
    rfl

theorem renew2LoopAux_abort (step : Nat → Renew2Step) (lid rid : Nat → String) (m : String) :
    ∀ (t i fuel : Nat) (e : Option String) (calls diags slps : Nat),
      (∀ j, j < t → step (i + j) = .renewOk (lid (i + j)) (rid (i + j))) →
      step (i + t) = .renewErr m →
      t < fuel →
      renew2LoopAux step i fuel e calls diags slps =
        ⟨some (stripQuotes m), true, calls + t + 1, diags + t, slps + t⟩ := by
  intro t
  induction t with
  | zero =>
    intro i fuel e calls diags slps _ hfail hlt
    obtain ⟨f, rfl⟩ : ∃ f, fuel = f + 1 := ⟨fuel - 1, by omega⟩
    have hi : step i = .renewErr m := by simpa using hfail
    simp [renew2LoopAux, hi]
  | succ t ih =>
    intro i fuel e calls diags slps hpre hfail hlt
    obtain ⟨f, rfl⟩ : ∃ f, fuel = f + 1 := ⟨fuel - 1, by omega⟩
    have hi : step i = .renewOk (lid i) (rid i) := by simpa using hpre 0 (by omega)
    have hrec := ih (i + 1) f e (calls + 1) (diags + 1) (slps + 1)
      (fun j hj => by
        have h0 := hpre (j + 1) (by omega)
        have e1 : i + (j + 1) = i + 1 + j := by omega
        rw [e1] at h0
        exact h0)
      (by
        have e2 : i + (t + 1) = i + 1 + t := by omega
        rw [e2] at hfail
        exact hfail)
      (by omega)
    simp only [renew2LoopAux, hi]
    rw [hrec]
    have h1 : calls + 1 + t + 1 = calls + (t + 1) + 1 := by omega
    have h2 : diags + 1 + t = diags + (t + 1) := by omega
    have h3 : slps + 1 + t = slps + (t + 1) := by omega
    rw [h1, h2, h3]

/-- C2 (divergence of the current code from the claim): with a backend
that confirms the single requested renewal with lease id
`0f8fad5b-d9cb-469f-a165-70867728950e`, the current RenewLease returns
the renew-specific success status but a nil lease token, while the v1
implementation of the same function returned the backend-confirmed
token. -/
theorem renew_success_does_not_report_lease_token :
    (RenewLease envC2 "sub" "rg" "acct" "cont" "blob" "tok" 1 1).response.Status =
      some Config.successRenew ∧
    (RenewLease envC2 "sub" "rg" "acct" "cont" "blob" "tok" 1 1).response.LeaseID = none ∧
    (RenewLeaseV1 envC2V1 "sub" "rg" "acct" "cont" "blob" "tok" 1 1).response.Status =
      some Config.successRenew ∧
    (RenewLeaseV1 envC2V1 "sub" "rg" "acct" "cont" "blob" "tok" 1 1).response.LeaseID =
      some "0f8fad5b-d9cb-469f-a165-70867728950e" := by
  decide

/-- C5: if the backend confirms the first i renewals and rejects
renewal i+1, the loop aborts immediately: exactly i+1 renew calls are
made, exactly i diagnostics are emitted, and the result is Fail carrying
that failure's (quote-stripped) error message. -/
theorem renew_failure_aborts_loop
    (env : Renew2Env) (subscriptionID resourceGroupName accountName container blobName
      tok : String) (K waittimesec i : Nat) (lid rid : Nat → String) (m : String)
    (hsc : env.storageClient = .ok ()) (hbc : env.blobClient = .ok ())
    (hbb : env.blockBlobClient = .ok ()) (hbp : env.blobProps = .ok ())
    (hpre : ∀ j, j < i → env.step j = .renewOk (lid j) (rid j))
    (hfail : env.step i = .renewErr m)
    (hiK : i < K) :
    (RenewLease env subscriptionID resourceGroupName accountName container blobName tok
      K waittimesec).renewCalls = i + 1 ∧
    (RenewLease env subscriptionID resourceGroupName accountName container blobName tok
      K waittimesec).diagnostics = i ∧
    (RenewLease env subscriptionID resourceGroupName accountName container blobName tok
      K waittimesec).sleeps = i ∧
    (RenewLease env subscriptionID resourceGroupName accountName container blobName tok
      K waittimesec).response.Status = some Config.fail ∧
    (RenewLease env subscriptionID resourceGroupName accountName container blobName tok
      K waittimesec).response.ErrorMessage = some (stripQuotes m) := by
  have hloop := renew2LoopAux_abort env.step lid rid m i 0 K none 0 0 0
    (fun j hj => by simpa using hpre j hj)
    (by simpa using hfail)
    hiK
  simp only [RenewLease, hsc, hbc, hbb, hbp, hloop]
  simp [baseResponse]

theorem renew_failure_aborts_loop_witness :
    (RenewLease envC5 "sub" "rg" "acct" "cont" "blob" "tok" 3 1).renewCalls = 2 ∧
    (RenewLease envC5 "sub" "rg" "acct" "cont" "blob" "tok" 3 1).diagnostics = 1 ∧
    (RenewLease envC5 "sub" "rg" "acct" "cont" "blob" "tok" 3 1).sleeps = 1 ∧
    (RenewLease envC5 "sub" "rg" "acct" "cont" "blob" "tok" 3 1).response.Status =
      some Config.fail ∧
    (RenewLease envC5 "sub" "rg" "acct" "cont" "blob" "tok" 3 1).response.ErrorMessage =
      some "LeaseIdMismatchWithLeaseOperation" :=
  renew_failure_aborts_loop envC5 "sub" "rg" "acct" "cont" "blob" "tok" 3 1 1
    (fun _ => "lease-1") (fun _ => "req-1") "LeaseIdMismatchWithLeaseOperation"
    rfl rfl rfl rfl
    (fun j hj => by
      have hj0 : j = 0 := by omega
      subst hj0
      rfl)
    rfl (by omega)

/-- C9: whenever the storage-account properties lookup fails,
GetAccountBlobEndpoint returns the empty string instead of an error;
parsing the empty string as a URL succeeds, so both AcquireLease and the
v1 RenewLease proceed past the endpoint-parse branch and their terminal
result comes from the lease-call stage. -/
theorem blob_endpoint_error_branch_unreachable
    (envA : AcquireEnv) (envR : Renew1Env)
    (subscriptionID resourceGroupName accountName container blobName tok keyA keyR
      eA eR : String) (leaseDuration N wait K wait2 : Nat)
    (h1 : envA.storageClient = .ok ()) (h2 : envA.accountKey = .ok keyA)
    (h3 : envA.sharedKeyCredential = .ok ()) (h4 : envA.accountProps = .error eA)
    (h5 : envR.storageClient = .ok ()) (h6 : envR.accountKey = .ok keyR)
    (h7 : envR.sharedKeyCredential = .ok ()) (h8 : envR.accountProps = .error eR) :
    GetAccountBlobEndpoint envA.toMgmtEnv = "" ∧
    GetAccountBlobEndpoint envR.toMgmtEnv = "" ∧
    urlParse "" = .ok () ∧
    (AcquireLease envA subscriptionID resourceGroupName accountName container blobName
      leaseDuration N wait).stage = Stage.leaseLoop ∧
    (RenewLeaseV1 envR subscriptionID resourceGroupName accountName container blobName tok
      K wait2).stage = Stage.leaseLoop := by
  have hea : GetAccountBlobEndpoint envA.toMgmtEnv = "" := by
    simp [GetAccountBlobEndpoint, h4]
  have her : GetAccountBlobEndpoint envR.toMgmtEnv = "" := by
    simp [GetAccountBlobEndpoint, h8]
  have hup : urlParse "" = .ok () := rfl
  refine ⟨hea, her, hup, ?_, ?_⟩
  · simp only [AcquireLease, h1, h2, h3, hea, hup]
    split <;> rfl
  · simp only [RenewLeaseV1, h5, h6, h7, her, hup]
    split <;> rfl

theorem blob_endpoint_error_branch_unreachable_witness :
    GetAccountBlobEndpoint
      ({ envC3 with accountProps := .error "network unreachable" }).toMgmtEnv = "" ∧
    GetAccountBlobEndpoint
      ({ envC2V1 with accountProps := .error "network unreachable" }).toMgmtEnv = "" ∧
    urlParse "" = .ok () ∧
    (AcquireLease { envC3 with accountProps := .error "network unreachable" }
      "sub" "rg" "acct" "cont" "blob" 15 1 1).stage = Stage.leaseLoop ∧
    (RenewLeaseV1 { envC2V1 with accountProps := .error "network unreachable" }
      "sub" "rg" "acct" "cont" "blob" "tok" 1 1).stage = Stage.leaseLoop :=
  blob_endpoint_error_branch_unreachable
    { envC3 with accountProps := .error "network unreachable" }
    { envC2V1 with accountProps := .error "network unreachable" }
    "sub" "rg" "acct" "cont" "blob" "tok" "key" "key"
    "network unreachable" "network unreachable" 15 1 1 1 1
    rfl rfl rfl rfl rfl rfl rfl rfl

/-- C10: every result of acquire, renew (current implementation) and
createleaseblob echoes the five input coordinates unchanged, and its
status is one of Success, SuccessAlreadyExists, SuccessOnRenew, Fail. -/
theorem results_echo_inputs_and_status_canonical
    (envA : AcquireEnv) (envR : Renew2Env) (envC : CreateEnv)
    (subscriptionID resourceGroupName accountName container blobName tok : String)
    (leaseDuration N wait K wait2 : Nat) :
    (echoesInputs (AcquireLease envA subscriptionID resourceGroupName accountName container
        blobName leaseDuration N wait).response subscriptionID resourceGroupName accountName
        container blobName ∧
      statusCanonical (AcquireLease envA subscriptionID resourceGroupName accountName
        container blobName leaseDuration N wait).response) ∧
    (echoesInputs (RenewLease envR subscriptionID resourceGroupName accountName container
        blobName tok K wait2).response subscriptionID resourceGroupName accountName
        container blobName ∧
      statusCanonical (RenewLease envR subscriptionID resourceGroupName accountName container
        blobName tok K wait2).response) ∧
    (echoesInputs (CreateLeaseBlob envC subscriptionID resourceGroupName accountName container
        blobName).1 subscriptionID resourceGroupName accountName container blobName ∧
      statusCanonical (CreateLeaseBlob envC subscriptionID resourceGroupName accountName
        container blobName).1) := by
  refine ⟨⟨?_, ?_⟩, ⟨?_, ?_⟩, ⟨?_, ?_⟩⟩ <;>
    · simp only [AcquireLease, RenewLease, CreateLeaseBlob, echoesInputs, statusCanonical]
      repeat' split
      all_goals simp [baseResponse]

/-- C6: provisioning is idempotent.  Against the honest backend, if the
lease blob already exists the operation reports SuccessAlreadyExists,
makes no creation or upload call and leaves the state untouched; and
starting from a state without the blob, running the operation twice
yields Success then SuccessAlreadyExists, with the content uploaded by
the first run never overwritten or truncated by the second. -/
theorem createleaseblob_idempotent
    (s : BlobState) (c payload1 payload2 subscriptionID resourceGroupName accountName
      container blobName : String) :
    (s.containerExists = true → s.blobContent = some c →
      (runCreateLeaseBlob s payload1 subscriptionID resourceGroupName accountName container
        blobName).1.Status = some Config.successAlreadyExists ∧
      BackendCall.uploadStream ∉ (CreateLeaseBlob (honestEnv s) subscriptionID
        resourceGroupName accountName container blobName).2 ∧
      BackendCall.containerCreate ∉ (CreateLeaseBlob (honestEnv s) subscriptionID
        resourceGroupName accountName container blobName).2 ∧
      (runCreateLeaseBlob s payload1 subscriptionID resourceGroupName accountName container
        blobName).2 = s) ∧
    (s.blobContent = none →
      (runCreateLeaseBlob s payload1 subscriptionID resourceGroupName accountName container
        blobName).1.Status = some Config.success ∧
      (runCreateLeaseBlob s payload1 subscriptionID resourceGroupName accountName container
        blobName).2.blobContent = some payload1 ∧
      (runCreateLeaseBlob (runCreateLeaseBlob s payload1 subscriptionID resourceGroupName
        accountName container blobName).2 payload2 subscriptionID resourceGroupName
        accountName container blobName).1.Status = some Config.successAlreadyExists ∧
      (runCreateLeaseBlob (runCreateLeaseBlob s payload1 subscriptionID resourceGroupName
        accountName container blobName).2 payload2 subscriptionID resourceGroupName
        accountName container blobName).2.blobContent = some payload1) := by
  obtain ⟨ce, bc⟩ := s
  have hcc : containsSubstr "ContainerNotFound" "ContainerNotFound" = true := by decide
  have hbb : containsSubstr "BlobNotFound" "BlobNotFound" = true := by decide
  constructor
  · intro hce hbc
    subst hce
    subst hbc
    simp [runCreateLeaseBlob, CreateLeaseBlob, honestEnv, applyCall, baseResponse]
  · intro hbc
    subst hbc
    cases ce <;>
      simp [runCreateLeaseBlob, CreateLeaseBlob, honestEnv, applyCall, baseResponse, hcc, hbb]

theorem createleaseblob_idempotent_witness :
    (runCreateLeaseBlob ⟨true, some "x"⟩ "data1" "sub" "rg" "acct" "cont" "blob").1.Status =
      some Config.successAlreadyExists ∧
    (runCreateLeaseBlob ⟨true, some "x"⟩ "data1" "sub" "rg" "acct" "cont" "blob").2 =
      ⟨true, some "x"⟩ ∧
    (runCreateLeaseBlob ⟨false, none⟩ "data1" "sub" "rg" "acct" "cont" "blob").1.Status =
      some Config.success ∧
    (runCreateLeaseBlob (runCreateLeaseBlob ⟨false, none⟩ "data1" "sub" "rg" "acct" "cont"
      "blob").2 "data2" "sub" "rg" "acct" "cont" "blob").1.Status =
      some Config.successAlreadyExists ∧
    (runCreateLeaseBlob (runCreateLeaseBlob ⟨false, none⟩ "data1" "sub" "rg" "acct" "cont"
      "blob").2 "data2" "sub" "rg" "acct" "cont" "blob").2.blobContent = some "data1" :=
  ⟨((createleaseblob_idempotent ⟨true, some "x"⟩ "x" "data1" "data2" "sub" "rg" "acct" "cont"
      "blob").1 rfl rfl).1,
    ((createleaseblob_idempotent ⟨true, some "x"⟩ "x" "data1" "data2" "sub" "rg" "acct" "cont"
      "blob").1 rfl rfl).2.2.2,
    ((createleaseblob_idempotent ⟨false, none⟩ "x" "data1" "data2" "sub" "rg" "acct" "cont"
      "blob").2 rfl).1,
    ((createleaseblob_idempotent ⟨false, none⟩ "x" "data1" "data2" "sub" "rg" "acct" "cont"
      "blob").2 rfl).2.2.1,
    ((createleaseblob_idempotent ⟨false, none⟩ "x" "data1" "data2" "sub" "rg" "acct" "cont"
      "blob").2 rfl).2.2.2⟩

/-- C7: during provisioning an existence-check error is classified
solely by the not-found marker in its text.  At most one container
creation and one upload happen on any run; a container-check error
without the marker aborts immediately with Fail, the quote-stripped
message, and no creation call; a container-check error with the marker
triggers the container creation; a blob-check error without the marker
ends in Fail with no upload call; and a blob-check error with the
marker is non-fatal: it triggers the upload that creates the blob, and
the run ends in Success when that upload succeeds. -/
theorem createleaseblob_error_classification
    (env : CreateEnv) (subscriptionID resourceGroupName accountName container blobName
      m : String) :
    ((CreateLeaseBlob env subscriptionID resourceGroupName accountName container
        blobName).2.count .containerCreate ≤ 1 ∧
      (CreateLeaseBlob env subscriptionID resourceGroupName accountName container
        blobName).2.count .uploadStream ≤ 1) ∧
    (env.storageClient = .ok () → env.blobClient = .ok () →
      env.containerProps = .error m → containsSubstr m "ContainerNotFound" = false →
      (CreateLeaseBlob env subscriptionID resourceGroupName accountName container
        blobName).1.Status = some Config.fail ∧
      (CreateLeaseBlob env subscriptionID resourceGroupName accountName container
        blobName).1.ErrorMessage = some (stripQuotes m) ∧
      (CreateLeaseBlob env subscriptionID resourceGroupName accountName container
        blobName).2 = [.containerGetProps]) ∧
    (env.storageClient = .ok () → env.blobClient = .ok () →
      env.containerProps = .error m → containsSubstr m "ContainerNotFound" = true →
      BackendCall.containerCreate ∈ (CreateLeaseBlob env subscriptionID resourceGroupName
        accountName container blobName).2) ∧
    (env.storageClient = .ok () → env.blobClient = .ok () →
      env.blobProps = .error m → containsSubstr m "BlobNotFound" = false →
      (CreateLeaseBlob env subscriptionID resourceGroupName accountName container
        blobName).1.Status = some Config.fail ∧
      BackendCall.uploadStream ∉ (CreateLeaseBlob env subscriptionID resourceGroupName
        accountName container blobName).2) ∧
    (env.storageClient = .ok () → env.blobClient = .ok () →
      env.containerProps = .ok () → env.blockBlobClient = .ok () →
      env.blobProps = .error m → containsSubstr m "BlobNotFound" = true →
      BackendCall.uploadStream ∈ (CreateLeaseBlob env subscriptionID resourceGroupName
        accountName container blobName).2 ∧
      (env.uploadStream = .ok () →
        (CreateLeaseBlob env subscriptionID resourceGroupName accountName container
          blobName).1.Status = some Config.success)) := by
  refine ⟨?_, ?_, ?_, ?_, ?_⟩
  · simp only [CreateLeaseBlob]
    repeat' split
    all_goals simp
  · intro hsc hbc hcp hm
    simp [CreateLeaseBlob, hsc, hbc, hcp, hm, baseResponse]
  · intro hsc hbc hcp hm
    simp only [CreateLeaseBlob, hsc, hbc, hcp, hm]
    repeat' split
    all_goals simp_all
  · intro hsc hbc hbp hm
    simp only [CreateLeaseBlob, hsc, hbc, hbp, hm]
    repeat' split
    all_goals simp_all [baseResponse]
  · intro hsc hbc hcp hbbc hbp hm
    refine ⟨?_, ?_⟩
    · simp only [CreateLeaseBlob, hsc, hbc, hcp, hbbc, hbp, hm]
      repeat' split
      all_goals simp_all
    · intro hup
      simp [CreateLeaseBlob, hsc, hbc, hcp, hbbc, hbp, hm, hup, baseResponse]

theorem createleaseblob_error_classification_witness :
    (({ honestEnv ⟨true, some "x"⟩ with
        containerProps := .error "AuthorizationFailure" } : CreateEnv).storageClient =
          .ok () →
      ({ honestEnv ⟨true, some "x"⟩ with
        containerProps := .error "AuthorizationFailure" } : CreateEnv).blobClient = .ok () →
      ({ honestEnv ⟨true, some "x"⟩ with
        containerProps := .error "AuthorizationFailure" } : CreateEnv).containerProps =
          .error "AuthorizationFailure" →
      containsSubstr "AuthorizationFailure" "ContainerNotFound" = false →
      (CreateLeaseBlob { honestEnv ⟨true, some "x"⟩ with
        containerProps := .error "AuthorizationFailure" } "sub" "rg" "acct" "cont"
        "blob").1.Status = some Config.fail ∧
      (CreateLeaseBlob { honestEnv ⟨true, some "x"⟩ with
        containerProps := .error "AuthorizationFailure" } "sub" "rg" "acct" "cont"
        "blob").1.ErrorMessage = some (stripQuotes "AuthorizationFailure") ∧
      (CreateLeaseBlob { honestEnv ⟨true, some "x"⟩ with
        containerProps := .error "AuthorizationFailure" } "sub" "rg" "acct" "cont"
        "blob").2 = [.containerGetProps]) ∧
    (CreateLeaseBlob { honestEnv ⟨true, some "x"⟩ with
      containerProps := .error "AuthorizationFailure" } "sub" "rg" "acct" "cont"
      "blob").1.Status = some Config.fail ∧
    BackendCall.uploadStream ∈
      (CreateLeaseBlob (honestEnv ⟨true, none⟩) "sub" "rg" "acct" "cont" "blob").2 ∧
    (CreateLeaseBlob (honestEnv ⟨true, none⟩) "sub" "rg" "acct" "cont" "blob").1.Status =
      some Config.success :=
  ⟨(createleaseblob_error_classification
      { honestEnv ⟨true, some "x"⟩ with containerProps := .error "AuthorizationFailure" }
      "sub" "rg" "acct" "cont" "blob" "AuthorizationFailure").2.1,
    ((createleaseblob_error_classification
      { honestEnv ⟨true, some "x"⟩ with containerProps := .error "AuthorizationFailure" }
      "sub" "rg" "acct" "cont" "blob" "AuthorizationFailure").2.1 rfl rfl rfl
      (by decide)).1,
    ((createleaseblob_error_classification (honestEnv ⟨true, none⟩)
      "sub" "rg" "acct" "cont" "blob" "BlobNotFound").2.2.2.2 rfl rfl rfl rfl rfl
      (by decide)).1,
    ((createleaseblob_error_classification (honestEnv ⟨true, none⟩)
      "sub" "rg" "acct" "cont" "blob" "BlobNotFound").2.2.2.2 rfl rfl rfl rfl rfl
      (by decide)).2 rfl⟩

theorem head?_append_of_some {α : Type} {l : List α} {a : α} (l2 : List α)
    (h : l.head? = some a) : (l ++ l2).head? = some a := by
  cases l with
  | nil => simp at h
  | cons b t => simpa using h

theorem goReplace_append_right : ∀ (a b : List Char), b.head? ≠ some '"' →
    goReplace (a ++ b) = goReplace a ++ goReplace b
  | [], _, _ => by simp [goReplace]
  | [c], b, hb => by
    cases b with
    | nil => simp [goReplace]
    | cons d bs =>
      have hd : ¬(c = '"' ∧ d = '"') := by
        rintro ⟨-, rfl⟩
        exact hb rfl
      show goReplace (c :: d :: bs) = goReplace [c] ++ goReplace (d :: bs)
      simp [goReplace, hd]
  | c1 :: c2 :: rest, b, hb => by
    by_cases h12 : c1 = '"' ∧ c2 = '"'
    · have ih := goReplace_append_right rest b hb
      show goReplace (c1 :: c2 :: (rest ++ b)) = goReplace (c1 :: c2 :: rest) ++ goReplace b
      simp [goReplace, h12, ih, List.append_assoc]
    · have ih := goReplace_append_right (c2 :: rest) b hb
      show goReplace (c1 :: c2 :: (rest ++ b)) = goReplace (c1 :: c2 :: rest) ++ goReplace b
      simp only [goReplace, h12, if_false, List.cons_append]
      simpa using ih

theorem goReplace_append_left : ∀ (a b : List Char), a.getLast? ≠ some '"' →
    goReplace (a ++ b) = goReplace a ++ goReplace b
  | [], _, _ => by simp [goReplace]
  | [c], b, hc => by
    have hcq : c ≠ '"' := by simpa using hc
    cases b with
    | nil => simp [goReplace]
    | cons d bs =>
      have hd : ¬(c = '"' ∧ d = '"') := fun h => hcq h.1
      show goReplace (c :: d :: bs) = goReplace [c] ++ goReplace (d :: bs)
      simp [goReplace, hd]
  | c1 :: c2 :: rest, b, hl => by
    have hl2 : (c2 :: rest).getLast? ≠ some '"' := by
      rwa [List.getLast?_cons_cons] at hl
    by_cases h12 : c1 = '"' ∧ c2 = '"'
    · rcases rest with _ | ⟨e, es⟩
      · exact absurd (by simp [h12.2]) hl2
      · have hrest : (e :: es).getLast? ≠ some '"' := by
          rwa [List.getLast?_cons_cons] at hl2
        have ih := goReplace_append_left (e :: es) b hrest
        show goReplace (c1 :: c2 :: ((e :: es) ++ b)) =
          goReplace (c1 :: c2 :: e :: es) ++ goReplace b
        simpa [goReplace, h12, List.append_assoc] using ih
    · have ih := goReplace_append_left (c2 :: rest) b hl2
      show goReplace (c1 :: c2 :: (rest ++ b)) = goReplace (c1 :: c2 :: rest) ++ goReplace b
      simp only [goReplace, h12, if_false, List.cons_append]
      simpa using ih

theorem goReplace_renderField_nullifyF (v : Option String) :
    goReplace (renderFieldChars (nullifyF v)) = goReplace (renderFieldChars v) := by
  match v with
  | none => rfl
  | some s =>
    by_cases hs : s = ""
    · subst hs
      have h1 : nullifyF (some "") = none := by simp [nullifyF]
      rw [h1]
      decide
    · have h2 : nullifyF (some s) = some s := by simp [nullifyF, hs]
      rw [h2]

theorem goReplace_step (lit : List Char) (hl : lit.getLast? ≠ some '"')
    (v : Option String) (rest1 rest2 : List Char)
    (h1 : rest1.head? ≠ some '"') (h2 : rest2.head? ≠ some '"')
    (hrec : goReplace rest1 = goReplace rest2) :
    goReplace (lit ++ (renderFieldChars (nullifyF v) ++ rest1)) =
      goReplace (lit ++ (renderFieldChars v ++ rest2)) := by
  rw [goReplace_append_left lit _ hl, goReplace_append_left lit _ hl,
    goReplace_append_right _ rest1 h1, goReplace_append_right _ rest2 h2,
    goReplace_renderField_nullifyF, hrec]

theorem goReplace_marshal_nullify (r : ResponseInfo) :
    goReplace (marshalChars (nullifyEmptyFields r)) = goReplace (marshalChars r) := by
  have hsep : ∀ (l z : List Char), l.head? = some ',' → (l ++ z).head? ≠ some '"' := by
    intro l z hl
    rw [head?_append_of_some z hl]
    simp
  have htail : jsonTail.head? ≠ some '"' := by decide
  have s9 := goReplace_step sepErrorMessage (by decide) r.ErrorMessage jsonTail jsonTail
    htail htail rfl
  have s8 := goReplace_step sepStatus (by decide) r.Status _ _
    (hsep sepErrorMessage _ (by decide)) (hsep sepErrorMessage _ (by decide)) s9
  have s7 := goReplace_step sepLeaseID (by decide) r.LeaseID _ _
    (hsep sepStatus _ (by decide)) (hsep sepStatus _ (by decide)) s8
  have s6 := goReplace_step sepOperation (by decide) r.Operation _ _
    (hsep sepLeaseID _ (by decide)) (hsep sepLeaseID _ (by decide)) s7
  have s5 := goReplace_step sepBlobName (by decide) r.BlobName _ _
    (hsep sepOperation _ (by decide)) (hsep sepOperation _ (by decide)) s6
  have s4 := goReplace_step sepContainerName (by decide) r.ContainerName _ _
    (hsep sepBlobName _ (by decide)) (hsep sepBlobName _ (by decide)) s5
  have s3 := goReplace_step sepStorageAccountName (by decide) r.StorageAccountName _ _
    (hsep sepContainerName _ (by decide)) (hsep sepContainerName _ (by decide)) s4
  have s2 := goReplace_step sepResourceGroupName (by decide) r.ResourceGroupName _ _
    (hsep sepStorageAccountName _ (by decide)) (hsep sepStorageAccountName _ (by decide)) s3
  have s1 := goReplace_step jsonHead (by decide) r.SubscriptionID _ _
    (hsep sepResourceGroupName _ (by decide)) (hsep sepResourceGroupName _ (by decide)) s2
  exact s1

/-- C8: BuildResultResponse maps every empty-string field to the JSON
text `null`: its output for any result equals its output for the result
with all empty-string fields replaced by nil pointers, and a nil-pointer
field can never read back as the empty string, so deserialization
reconstructs null.  The last conjunct checks the field-level rewriting
of `""` to `null` directly. -/
theorem buildResult_normalizes_empty_fields_to_null (r : ResponseInfo) :
    BuildResultResponse r = BuildResultResponse (nullifyEmptyFields r) ∧
    (∀ v : Option String, nullifyF v ≠ some "") ∧
    (r.Status = some "" → (nullifyEmptyFields r).Status = none) ∧
    goReplace (renderFieldChars (some "")) = renderFieldChars none := by
  refine ⟨?_, ?_, ?_, ?_⟩
  · exact congrArg (fun l => (⟨l⟩ : String)) (goReplace_marshal_nullify r).symm
  · intro v
    by_cases hv : v = some ""
    · subst hv
      simp [nullifyF]
    · simp [nullifyF, hv]
  · intro h
    show nullifyF r.Status = none
    rw [h]
    simp [nullifyF]
  · decide

theorem buildResult_normalizes_empty_fields_to_null_witness :
    BuildResultResponse
        ⟨some "sub", some "rg", some "acct", some "cont", some "blob", some "acquire",
          none, some "", none⟩ =
      BuildResultResponse
        (nullifyEmptyFields
          ⟨some "sub", some "rg", some "acct", some "cont", some "blob", some "acquire",
            none, some "", none⟩) ∧
    (nullifyEmptyFields
        ⟨some "sub", some "rg", some "acct", some "cont", some "blob", some "acquire",
          none, some "", none⟩).Status = none :=
  ⟨(buildResult_normalizes_empty_fields_to_null
      ⟨some "sub", some "rg", some "acct", some "cont", some "blob", some "acquire",
        none, some "", none⟩).1,
    (buildResult_normalizes_empty_fields_to_null
      ⟨some "sub", some "rg", some "acct", some "cont", some "blob", some "acquire",
        none, some "", none⟩).2.2.1 rfl⟩

end Azbloblease
